import Mathlib

/-!
Verification of the FaceDetectAge repository's numeric core against its
specification: a shallow embedding of the client-side detection pipeline
(`useFaceApi.detectFaces` in `face-detection.tsx`), the stats aggregator
(`calculateAnalysisStats` in `face-api-utils.ts`), and the Express REST
routes over the in-memory storage backend (`registerRoutes`, `MemStorage`).

JavaScript numbers are modelled as exact rationals (ℚ); `Math.round` is
modelled as floor of x + 1/2, which is its semantics on all JS numbers
(round half toward positive infinity).
-/

namespace FaceDetectAge

/-- JavaScript `Math.round`: floor of x + 0.5 (rounds half up). -/
def jsRound (q : ℚ) : ℤ := ⌊q + 1/2⌋

/-- The binary gender category produced by the age-gender model. -/
inductive Gender where
  | male
  | female
deriving DecidableEq, Repr

/-- A 2-D point (landmark position). -/
structure Point where
  x : ℚ
  y : ℚ
deriving DecidableEq, Repr

/-- A bounding box, in whichever coordinate space the context fixes. -/
structure Box where
  x : ℚ
  y : ℚ
  width : ℚ
  height : ℚ
deriving DecidableEq, Repr

/-- One raw detection from the external model on the detection canvas:
box and landmarks in canvas coordinates, age estimate, predicted gender
and its probability. -/
structure RawDetection where
  box : Box
  age : ℚ
  gender : Gender
  genderProbability : ℚ
  landmarks : List Point
deriving DecidableEq, Repr

/-- `face-detection.tsx` line 163:
`scale = Math.max(1, targetWidth / Math.max(1, naturalW))` with
`targetWidth = 1024`. -/
def scaleFactor (naturalW : ℚ) : ℚ := max 1 (1024 / max 1 naturalW)

/-- Multiply a point's coordinates by a scalar (the inverse scale). -/
def scalePoint (p : Point) (inv : ℚ) : Point := ⟨p.x * inv, p.y * inv⟩

/-- Multiply all four box coordinates by a scalar (the inverse scale). -/
def scaleBox (b : Box) (inv : ℚ) : Box :=
  ⟨b.x * inv, b.y * inv, b.width * inv, b.height * inv⟩

/-- The age-confidence heuristic of `face-detection.tsx` lines 185 and 193
(and identically lines 263 and 269):
`Math.round(Math.min(95, Math.max(70, 90 - Math.abs(age - 30) * 0.5)))`. -/
def ageConfidenceOf (age : ℚ) : ℤ :=
  jsRound (min 95 (max 70 (90 - |age - 30| * (1/2))))

/-- An entry of `initialResults` (`face-detection.tsx` lines 181-198):
the detection mapped back to original-image coordinates, keeping the raw
canvas-space box for the later crop step. -/
structure InitialResult where
  id : String
  box : Box
  rawBox : Box
  age : ℚ
  ageConfidence : ℤ
  gender : Gender
  genderConfidence : ℤ
  landmarks : List Point
deriving DecidableEq, Repr

/-- Build one `initialResults` entry from a raw detection
(`face-detection.tsx` lines 181-198): divide box and landmark coordinates
by the scale, keep the raw canvas-space box, derive the confidences. -/
def mkInitialResult (index : ℕ) (d : RawDetection) (scale : ℚ) : InitialResult :=
  let invScale := 1 / scale
  { id := "face-" ++ toString (index + 1)
    box := scaleBox d.box invScale
    rawBox := d.box
    age := d.age
    ageConfidence := ageConfidenceOf d.age
    gender := d.gender
    genderConfidence := jsRound (d.genderProbability * 100)
    landmarks := d.landmarks.map (fun p => scalePoint p invScale) }

/-- The final per-face result shape (`FaceDetectionResult` in
`shared/schema`): box and landmarks in original-image coordinates,
integer age and confidences. -/
structure RefinedFace where
  id : String
  box : Box
  age : ℤ
  ageConfidence : ℤ
  gender : Gender
  genderConfidence : ℤ
  landmarks : List Point
deriving DecidableEq, Repr

/-- The non-ensemble finalisation (`face-detection.tsx` lines 202-210):
round the age, keep every other field of the initial result. -/
def finalizeNoEnsemble (r : InitialResult) : RefinedFace :=
  { id := r.id
    box := r.box
    age := jsRound r.age
    ageConfidence := r.ageConfidence
    gender := r.gender
    genderConfidence := r.genderConfidence
    landmarks := r.landmarks }

/-- One crop's age/gender prediction (`face-detection.tsx` line 238);
`none` models a crop on which `detectSingleFace` found nothing. -/
structure CropPred where
  age : ℚ
  gender : Gender
  genderProbability : ℚ
deriving DecidableEq, Repr

/-- The ensemble-averaging step for one face
(`face-detection.tsx` lines 241-274): drop the crops that yielded no
detection; with none left, fall back to the initial detection's values
(age rounded); otherwise average ages and gender probabilities, derive the
age confidence from the averaged age, and take the first valid crop's
gender label.  Box and landmarks always come from the initial result. -/
def refineFace (r : InitialResult) (preds : List (Option CropPred)) : RefinedFace :=
  match preds.filterMap id with
  | [] =>
    { id := r.id
      box := r.box
      age := jsRound r.age
      ageConfidence := r.ageConfidence
      gender := r.gender
      genderConfidence := r.genderConfidence
      landmarks := r.landmarks }
  | v :: vs =>
    let valid := v :: vs
    let avgAge := (valid.foldl (fun s p => s + p.age) 0) / (valid.length : ℚ)
    let avgGenderProb :=
      (valid.foldl (fun s p => s + p.genderProbability) 0) / (valid.length : ℚ)
    { id := r.id
      box := r.box
      age := jsRound avgAge
      ageConfidence := ageConfidenceOf avgAge
      gender := v.gender
      genderConfidence := jsRound (avgGenderProb * 100)
      landmarks := r.landmarks }

/-- The three ensemble padding fractions (`face-detection.tsx` line 216):
0.10, 0.25, 0.45. -/
def paddings : List ℚ := [1/10, 1/4, 9/20]

/-- A crop rectangle before rounding, in canvas coordinates. -/
structure CropRectRaw where
  cx : ℚ
  cy : ℚ
  cw : ℚ
  ch : ℚ
deriving DecidableEq, Repr

/-- The unrounded crop rectangle of `face-detection.tsx` lines 217-220:
origin moved out by `pad × dimension` and clamped at 0; extent
`dimension × (1 + 2·pad)` clamped so the rectangle ends inside the
canvas. -/
def cropRectRaw (canvasW canvasH : ℚ) (b : Box) (pad : ℚ) : CropRectRaw :=
  let cx := max 0 (b.x - b.width * pad)
  let cy := max 0 (b.y - b.height * pad)
  let cw := min (canvasW - cx) (b.width * (1 + pad * 2))
  let ch := min (canvasH - cy) (b.height * (1 + pad * 2))
  ⟨cx, cy, cw, ch⟩

/-- A crop rectangle after rounding, as built on line 221. -/
structure CropRect where
  x : ℤ
  y : ℤ
  w : ℤ
  h : ℤ
deriving DecidableEq, Repr

/-- The rounded crop rectangle (`face-detection.tsx` line 221):
`Math.round` of each coordinate of the unrounded rectangle. -/
def cropRect (canvasW canvasH : ℚ) (b : Box) (pad : ℚ) : CropRect :=
  let c := cropRectRaw canvasW canvasH b pad
  ⟨jsRound c.cx, jsRound c.cy, jsRound c.cw, jsRound c.ch⟩

/-- A box lies within the canvas: nonnegative origin, extent at most the
canvas dimensions. -/
def boxWithinCanvas (canvasW canvasH : ℚ) (b : Box) : Prop :=
  0 ≤ b.x ∧ 0 ≤ b.y ∧ b.x + b.width ≤ canvasW ∧ b.y + b.height ≤ canvasH

/-- The per-face combined confidence inside `calculateAnalysisStats`
(`face-api-utils.ts` line 12):
`Math.round((face.ageConfidence + face.genderConfidence) / 2)`. -/
def combinedConfidence (f : RefinedFace) : ℤ :=
  jsRound (((f.ageConfidence : ℚ) + (f.genderConfidence : ℚ)) / 2)

/-- The `avgConfidence` field of `calculateAnalysisStats`
(`face-api-utils.ts` lines 10-15): 0 when there are no faces, otherwise
the rounded mean of the per-face combined confidences accumulated by
`reduce`. -/
def calcAvgConfidence (faces : List RefinedFace) : ℤ :=
  if faces.length > 0 then
    jsRound (((faces.foldl (fun sum f => sum + combinedConfidence f) 0 : ℤ) : ℚ) /
      (faces.length : ℚ))
  else 0

/-- Image dimensions as stored in the analysis records. -/
structure Dimensions where
  width : ℤ
  height : ℤ
deriving DecidableEq, Repr

/-- A validated `POST /api/analyses` body (`insertFaceAnalysisSchema`: the
analysis row without its id and timestamp). -/
structure InsertFaceAnalysis where
  imageFileName : String
  imageDimensions : Dimensions
  detectedFaces : List RefinedFace
  processingTime : Option String
deriving DecidableEq, Repr

/-- A stored analysis record (a `face_analyses` row). -/
structure FaceAnalysis where
  id : String
  imageFileName : String
  imageDimensions : Dimensions
  detectedFaces : List RefinedFace
  analysisTimestamp : ℤ
  processingTime : Option String
deriving DecidableEq, Repr

/-- The in-memory backend's map of analyses (`MemStorage.analyses`), as an
insertion-ordered association list (a JS `Map` iterates in insertion
order). -/
structure MemStorage where
  analyses : List (String × FaceAnalysis)
deriving DecidableEq, Repr

/-- JS `Map.set`: replace the value in place when the key exists, append
at the end otherwise. -/
def mapSet (l : List (String × FaceAnalysis)) (k : String) (v : FaceAnalysis) :
    List (String × FaceAnalysis) :=
  if l.any (fun p => p.1 == k) then
    l.map (fun p => if p.1 = k then (k, v) else p)
  else l ++ [(k, v)]

/-- `MemStorage.createFaceAnalysis` (storage lines 230-242): build the
record under a fresh id and the current timestamp
(`analysis.processingTime || null` sends an absent or empty string to
null), store it, return it. -/
def createFaceAnalysis (store : MemStorage) (newId : String) (now : ℤ)
    (a : InsertFaceAnalysis) : FaceAnalysis × MemStorage :=
  let fa : FaceAnalysis :=
    { id := newId
      imageFileName := a.imageFileName
      imageDimensions := a.imageDimensions
      detectedFaces := a.detectedFaces
      analysisTimestamp := now
      processingTime :=
        match a.processingTime with
        | some s => if s = "" then none else some s
        | none => none }
  (fa, ⟨mapSet store.analyses newId fa⟩)

/-- `MemStorage.getFaceAnalysis` (storage lines 250-252): lookup by id. -/
def getFaceAnalysisById (store : MemStorage) (key : String) : Option FaceAnalysis :=
  store.analyses.lookup key

/-- The JSON body of a route response. -/
inductive RespBody where
  | record (a : FaceAnalysis)
  | records (l : List FaceAnalysis)
  | errorMsg (s : String)
deriving DecidableEq, Repr

/-- An HTTP response: status code plus JSON body. -/
structure Response where
  status : ℕ
  body : RespBody
deriving DecidableEq, Repr

/-- The `POST /api/analyses` handler (routes lines 8-16) over the
in-memory backend. `parsed` is the outcome of
`insertFaceAnalysisSchema.parse`; `Except.error` models the thrown
validation error, which the route's `catch` turns into a 400 reply before
`createFaceAnalysis` ever runs. -/
def postAnalyses (store : MemStorage) (newId : String) (now : ℤ)
    (parsed : Except String InsertFaceAnalysis) : Response × MemStorage :=
  match parsed with
  | Except.error e => (⟨400, RespBody.errorMsg e⟩, store)
  | Except.ok d =>
    let r := createFaceAnalysis store newId now d
    (⟨200, RespBody.record r.1⟩, r.2)

/-- The `GET /api/analyses/:id` handler (routes lines 28-39) over the
in-memory backend: 404 with an error body when the id is unknown, the
record as JSON otherwise.  The handler is a total function — the
in-memory lookup cannot throw. -/
def getAnalysisById (store : MemStorage) (key : String) : Response :=
  match getFaceAnalysisById store key with
  | none => ⟨404, RespBody.errorMsg "Analysis not found"⟩
  | some a => ⟨200, RespBody.record a⟩

/-- JS `array.slice(0, e)` where `e` may be `NaN` (modelled as `none`):
`ToIntegerOrInfinity(NaN) = 0`, so a `NaN` end selects nothing; a negative
end counts from the end of the array. -/
def jsSliceToEnd {α : Type} (l : List α) (e : Option ℤ) : List α :=
  match e with
  | none => []
  | some n => if n < 0 then l.take ((l.length : ℤ) + n).toNat else l.take n.toNat

/-- The sorting step of `MemStorage.getFaceAnalyses` (storage line 246):
newest first, by the `b.analysisTimestamp - a.analysisTimestamp`
comparator (JS sort is stable, as is `mergeSort`). -/
def sortNewestFirst (l : List FaceAnalysis) : List FaceAnalysis :=
  l.mergeSort (fun a b => decide (b.analysisTimestamp ≤ a.analysisTimestamp))

/-- `MemStorage.getFaceAnalyses` (storage lines 244-248): the map's values
in insertion order, sorted newest first, then `slice(0, limit)` — where
the limit may be `NaN`. -/
def getFaceAnalysesMem (store : MemStorage) (limit : Option ℤ) : List FaceAnalysis :=
  jsSliceToEnd (sortNewestFirst (store.analyses.map Prod.snd)) limit

/-- The `GET /api/analyses` handler (routes lines 18-26):
`limitQuery = none` models an absent `limit` query parameter (default 10),
`some v` a present one with `v` the result of `parseInt` (`none` inside
models `NaN`, which is passed through to the storage layer unchecked). -/
def routeGetAnalyses (store : MemStorage) (limitQuery : Option (Option ℤ)) :
    List FaceAnalysis :=
  let limit : Option ℤ :=
    match limitQuery with
    | some v => v
    | none => some 10
  getFaceAnalysesMem store limit

end FaceDetectAge

namespace FaceDetectAge

/-- Folding addition of `f` over a list equals the initial accumulator plus
the sum of the mapped list (bridges the source's `reduce((s, p) => s + f(p), 0)`
with the arithmetic mean the spec speaks of). -/
theorem foldl_add_map {α M : Type} [AddCommMonoid M] (f : α → M) :
    ∀ (l : List α) (a : M), List.foldl (fun s p => s + f p) a l = a + (l.map f).sum := by
  intro l
  induction l with
  | nil => intro a; simp
  | cons x xs ih => intro a; simp [List.foldl_cons, ih, add_assoc]

/-- A concrete initial result used to instantiate the ensemble theorems. -/
def rEx : InitialResult :=
  { id := "face-1"
    box := ⟨1, 2, 3, 4⟩
    rawBox := ⟨2, 4, 6, 8⟩
    age := 33
    ageConfidence := 88
    gender := Gender.female
    genderConfidence := 91
    landmarks := [⟨1, 1⟩] }

/-- The spec's synthetic crop results: ages 20, 30, 40 and gender
probabilities 0.8, 0.9, 0.7. -/
def predsEx : List (Option CropPred) :=
  [some ⟨20, Gender.male, 4/5⟩, some ⟨30, Gender.male, 9/10⟩,
   some ⟨40, Gender.female, 7/10⟩]

/-- First of the synthetic crop results. -/
def vEx : CropPred := ⟨20, Gender.male, 4/5⟩

/-- Remaining synthetic crop results. -/
def vsEx : List CropPred := [⟨30, Gender.male, 9/10⟩, ⟨40, Gender.female, 7/10⟩]

/-- C1: when at least one crop yields a prediction, the refined age is the
rounded arithmetic mean of the valid crops' ages, the refined gender
confidence is round(mean of the valid crops' gender probabilities × 100),
and the refined gender label is the first valid crop's label. -/
theorem ensemble_averages (r : InitialResult) (preds : List (Option CropPred))
    (v : CropPred) (vs : List CropPred) (h : preds.filterMap id = v :: vs) :
    (refineFace r preds).age =
      jsRound (((v :: vs).map CropPred.age).sum / ((v :: vs).length : ℚ)) ∧
    (refineFace r preds).genderConfidence =
      jsRound ((((v :: vs).map CropPred.genderProbability).sum /
        ((v :: vs).length : ℚ)) * 100) ∧
    (refineFace r preds).gender = v.gender := by
  unfold refineFace
  rw [h]
  refine ⟨?_, ?_, rfl⟩ <;>
    simp only [foldl_add_map, zero_add]

/-- C1 witness: on the synthetic crops (ages 20, 30, 40; probabilities
0.8, 0.9, 0.7) the hypothesis holds, and the output age is 30, the output
gender confidence is 80, and the gender label is the first crop's (male). -/
theorem ensemble_averages_witness :
    (predsEx.filterMap id = vEx :: vsEx ∧
      ((refineFace rEx predsEx).age =
        jsRound (((vEx :: vsEx).map CropPred.age).sum / ((vEx :: vsEx).length : ℚ)) ∧
      (refineFace rEx predsEx).genderConfidence =
        jsRound ((((vEx :: vsEx).map CropPred.genderProbability).sum /
          ((vEx :: vsEx).length : ℚ)) * 100) ∧
      (refineFace rEx predsEx).gender = vEx.gender)) ∧
    ((refineFace rEx predsEx).age = 30 ∧
     (refineFace rEx predsEx).genderConfidence = 80 ∧
     (refineFace rEx predsEx).gender = Gender.male) :=
  ⟨⟨rfl, ensemble_averages rEx predsEx vEx vsEx rfl⟩, by
    have h := ensemble_averages rEx predsEx vEx vsEx rfl
    refine ⟨?_, ?_, ?_⟩
    · rw [h.1]; norm_num [vEx, vsEx, jsRound]
    · rw [h.2.1]; norm_num [vEx, vsEx, jsRound]
    · rw [h.2.2]; rfl⟩

/-- C2: when all crops yield no detection, the refined output equals the
initial unrefined detection exactly — it coincides with the non-ensemble
finalisation: same box, landmarks, ageConfidence, gender and
genderConfidence, with the age rounded. -/
theorem ensemble_fallback (r : InitialResult) (preds : List (Option CropPred))
    (h : preds.filterMap id = []) :
    refineFace r preds = finalizeNoEnsemble r ∧
    (refineFace r preds).box = r.box ∧
    (refineFace r preds).landmarks = r.landmarks ∧
    (refineFace r preds).age = jsRound r.age ∧
    (refineFace r preds).ageConfidence = r.ageConfidence ∧
    (refineFace r preds).gender = r.gender ∧
    (refineFace r preds).genderConfidence = r.genderConfidence := by
  have hmain : refineFace r preds = finalizeNoEnsemble r := by
    unfold refineFace finalizeNoEnsemble
    rw [h]
  rw [hmain]
  exact ⟨rfl, rfl, rfl, rfl, rfl, rfl, rfl⟩

/-- C2 witness: three empty crop results trigger the fallback, whose output
is the non-ensemble finalisation of the initial detection. -/
theorem ensemble_fallback_witness :
    (([none, none, none] : List (Option CropPred)).filterMap id = [] ∧
      refineFace rEx [none, none, none] = finalizeNoEnsemble rEx) :=
  ⟨rfl, (ensemble_fallback rEx [none, none, none] rfl).1⟩

/-- C3 counterexample: at age 0 the heuristic yields 75, not the 70 the
claim asserts (clamp(90 − 0.5·30, 70, 95) = clamp(75, 70, 95) = 75). -/
theorem ageConfidence_age_zero_is_75_not_70 :
    ageConfidenceOf 0 = 75 ∧ ¬ (ageConfidenceOf 0 = 70) := by
  constructor <;> norm_num [ageConfidenceOf, jsRound]

/-- C3 (amended): the derived age confidence equals
round(clamp(90 − 0.5·|age − 30|, 70, 95)); age 30 yields 90, age 0 yields
75, age 90 yields 70, and for every input age the result lies between 70
and 95. -/
theorem ageConfidence_curve (age : ℚ) :
    ageConfidenceOf age = jsRound (min 95 (max 70 (90 - |age - 30| * (1/2)))) ∧
    ageConfidenceOf 30 = 90 ∧
    ageConfidenceOf 0 = 75 ∧
    ageConfidenceOf 90 = 70 ∧
    70 ≤ ageConfidenceOf age ∧ ageConfidenceOf age ≤ 95 := by
  refine ⟨rfl, by norm_num [ageConfidenceOf, jsRound],
    by norm_num [ageConfidenceOf, jsRound], by norm_num [ageConfidenceOf, jsRound], ?_, ?_⟩
  · have h1 : (70 : ℚ) ≤ min 95 (max 70 (90 - |age - 30| * (1/2))) := by
      have := le_max_left (70 : ℚ) (90 - |age - 30| * (1/2))
      exact le_min (by norm_num) this
    have h2 : (70 : ℤ) ≤ ⌊min 95 (max 70 (90 - |age - 30| * (1/2))) + 1/2⌋ := by
      rw [Int.le_floor]
      push_cast
      linarith
    exact h2
  · have h1 : min 95 (max 70 (90 - |age - 30| * (1/2))) ≤ (95 : ℚ) :=
      min_le_left _ _
    have h2 : ⌊min 95 (max 70 (90 - |age - 30| * (1/2))) + 1/2⌋ ≤ (95 : ℤ) := by
      have h3 : min 95 (max 70 (90 - |age - 30| * (1/2))) + 1/2 ≤ (191/2 : ℚ) := by
        linarith
      calc ⌊min 95 (max 70 (90 - |age - 30| * (1/2))) + 1/2⌋
          ≤ ⌊(191/2 : ℚ)⌋ := Int.floor_le_floor h3
        _ = 95 := by norm_num
    exact h2

/-- A concrete raw detection for the coordinate-rescaling witness. -/
def dEx : RawDetection :=
  { box := ⟨10, 20, 30, 40⟩
    age := 25
    gender := Gender.male
    genderProbability := 9/10
    landmarks := [⟨12, 22⟩] }

/-- C4: for an original width of at least 1, the upscale factor is
max(1, 1024 / width) and never drops below 1, and every output box and
landmark coordinate is the canvas coordinate multiplied by the inverse of
the factor. -/
theorem coord_rescale (w : ℚ) (hw : 1 ≤ w) (d : RawDetection) (i : ℕ) :
    scaleFactor w = max 1 (1024 / w) ∧
    1 ≤ scaleFactor w ∧
    (mkInitialResult i d (scaleFactor w)).box = scaleBox d.box (1 / scaleFactor w) ∧
    (mkInitialResult i d (scaleFactor w)).landmarks =
      d.landmarks.map (fun p => scalePoint p (1 / scaleFactor w)) := by
  refine ⟨?_, le_max_left 1 _, rfl, rfl⟩
  unfold scaleFactor
  rw [max_eq_right hw]

/-- C4 witness: a 512-wide image gives upscale factor 2, and a box at
canvas coordinates (10, 20, 30, 40) with landmark (12, 22) maps back to
exactly half magnitude: (5, 10, 15, 20) and (6, 11). -/
theorem coord_rescale_witness :
    ((1 : ℚ) ≤ 512 ∧
      (scaleFactor 512 = max 1 (1024 / 512) ∧
       1 ≤ scaleFactor 512 ∧
       (mkInitialResult 0 dEx (scaleFactor 512)).box = scaleBox dEx.box (1 / scaleFactor 512) ∧
       (mkInitialResult 0 dEx (scaleFactor 512)).landmarks =
         dEx.landmarks.map (fun p => scalePoint p (1 / scaleFactor 512)))) ∧
    (scaleFactor 512 = 2 ∧
     (mkInitialResult 0 dEx (scaleFactor 512)).box = ⟨5, 10, 15, 20⟩ ∧
     (mkInitialResult 0 dEx (scaleFactor 512)).landmarks = [⟨6, 11⟩]) :=
  ⟨⟨by norm_num, coord_rescale 512 (by norm_num) dEx 0⟩, by
    have hs : scaleFactor 512 = 2 := by norm_num [scaleFactor]
    refine ⟨hs, ?_, ?_⟩ <;>
      norm_num [mkInitialResult, dEx, hs, scaleBox, scalePoint]⟩

/-- The box of the C5 counterexample: (5, 0, 10, 10) inside a 19 × 19
canvas. -/
def boxEx : Box := ⟨5, 0, 10, 10⟩

/-- C5 counterexample: for the box (5, 0, 10, 10) inside a 19 × 19 canvas
and padding 0.45, the unrounded crop is (0.5, 0, 18.5, 19); rounding gives
x = 1 and width = 19, so x + width = 20 exceeds the canvas width 19. -/
theorem crop_bounds_counterexample :
    boxWithinCanvas 19 19 boxEx ∧
    (9/20 : ℚ) ∈ paddings ∧
    ¬ ((cropRect 19 19 boxEx (9/20)).x + (cropRect 19 19 boxEx (9/20)).w ≤ 19) := by
  refine ⟨?_, ?_, ?_⟩
  · norm_num [boxWithinCanvas, boxEx]
  · norm_num [paddings]
  · norm_num [cropRect, cropRectRaw, boxEx, jsRound,
      show max (0:ℚ) (5 - 10 * (9/20)) = 1/2 by norm_num [max_def],
      show min ((19:ℚ) - 1/2) (10 * (1 + 9/20 * 2)) = 37/2 by norm_num [min_def]]

/-- C5 (amended): for every box inside the canvas and each padding
fraction, the unrounded crop rectangle satisfies the canvas bounds
exactly (origin ≥ 0, extent within the canvas); after rounding, the
origin is still nonnegative but the extent is only guaranteed to stay
within the canvas dimension plus one. -/
theorem crop_bounds (W H : ℤ) (b : Box) (pad : ℚ)
    (hb : boxWithinCanvas (W : ℚ) (H : ℚ) b) (hp : pad ∈ paddings) :
    0 ≤ (cropRectRaw (W : ℚ) (H : ℚ) b pad).cx ∧
    0 ≤ (cropRectRaw (W : ℚ) (H : ℚ) b pad).cy ∧
    (cropRectRaw (W : ℚ) (H : ℚ) b pad).cx + (cropRectRaw (W : ℚ) (H : ℚ) b pad).cw ≤ (W : ℚ) ∧
    (cropRectRaw (W : ℚ) (H : ℚ) b pad).cy + (cropRectRaw (W : ℚ) (H : ℚ) b pad).ch ≤ (H : ℚ) ∧
    0 ≤ (cropRect (W : ℚ) (H : ℚ) b pad).x ∧
    0 ≤ (cropRect (W : ℚ) (H : ℚ) b pad).y ∧
    (cropRect (W : ℚ) (H : ℚ) b pad).x + (cropRect (W : ℚ) (H : ℚ) b pad).w ≤ W + 1 ∧
    (cropRect (W : ℚ) (H : ℚ) b pad).y + (cropRect (W : ℚ) (H : ℚ) b pad).h ≤ H + 1 := by
  have hcx : 0 ≤ (cropRectRaw (W : ℚ) (H : ℚ) b pad).cx := le_max_left 0 _
  have hcy : 0 ≤ (cropRectRaw (W : ℚ) (H : ℚ) b pad).cy := le_max_left 0 _
  have hcw : (cropRectRaw (W : ℚ) (H : ℚ) b pad).cw ≤
      (W : ℚ) - (cropRectRaw (W : ℚ) (H : ℚ) b pad).cx := min_le_left _ _
  have hch : (cropRectRaw (W : ℚ) (H : ℚ) b pad).ch ≤
      (H : ℚ) - (cropRectRaw (W : ℚ) (H : ℚ) b pad).cy := min_le_left _ _
  have hfx : (↑(jsRound (cropRectRaw (W : ℚ) (H : ℚ) b pad).cx) : ℚ) ≤
      (cropRectRaw (W : ℚ) (H : ℚ) b pad).cx + 1/2 := Int.floor_le _
  have hfy : (↑(jsRound (cropRectRaw (W : ℚ) (H : ℚ) b pad).cy) : ℚ) ≤
      (cropRectRaw (W : ℚ) (H : ℚ) b pad).cy + 1/2 := Int.floor_le _
  have hfw : (↑(jsRound (cropRectRaw (W : ℚ) (H : ℚ) b pad).cw) : ℚ) ≤
      (cropRectRaw (W : ℚ) (H : ℚ) b pad).cw + 1/2 := Int.floor_le _
  have hfh : (↑(jsRound (cropRectRaw (W : ℚ) (H : ℚ) b pad).ch) : ℚ) ≤
      (cropRectRaw (W : ℚ) (H : ℚ) b pad).ch + 1/2 := Int.floor_le _
  refine ⟨hcx, hcy, by linarith, by linarith, ?_, ?_, ?_, ?_⟩
  · exact Int.le_floor.mpr (by push_cast; linarith)
  · exact Int.le_floor.mpr (by push_cast; linarith)
  · show jsRound (cropRectRaw (W : ℚ) (H : ℚ) b pad).cx +
      jsRound (cropRectRaw (W : ℚ) (H : ℚ) b pad).cw ≤ W + 1
    rw [← @Int.cast_le ℚ]
    push_cast
    linarith
  · show jsRound (cropRectRaw (W : ℚ) (H : ℚ) b pad).cy +
      jsRound (cropRectRaw (W : ℚ) (H : ℚ) b pad).ch ≤ H + 1
    rw [← @Int.cast_le ℚ]
    push_cast
    linarith

/-- C5 witness: the box (5, 0, 10, 10) inside the 19 × 19 canvas with
padding 0.10 satisfies the amended bounds. -/
theorem crop_bounds_witness :
    (boxWithinCanvas 19 19 boxEx ∧ (1/10 : ℚ) ∈ paddings) ∧
    (0 ≤ (cropRectRaw 19 19 boxEx (1/10)).cx ∧
     0 ≤ (cropRectRaw 19 19 boxEx (1/10)).cy ∧
     (cropRectRaw 19 19 boxEx (1/10)).cx + (cropRectRaw 19 19 boxEx (1/10)).cw ≤ ((19 : ℤ) : ℚ) ∧
     (cropRectRaw 19 19 boxEx (1/10)).cy + (cropRectRaw 19 19 boxEx (1/10)).ch ≤ ((19 : ℤ) : ℚ) ∧
     0 ≤ (cropRect 19 19 boxEx (1/10)).x ∧
     0 ≤ (cropRect 19 19 boxEx (1/10)).y ∧
     (cropRect 19 19 boxEx (1/10)).x + (cropRect 19 19 boxEx (1/10)).w ≤ 19 + 1 ∧
     (cropRect 19 19 boxEx (1/10)).y + (cropRect 19 19 boxEx (1/10)).h ≤ 19 + 1) :=
  ⟨⟨by norm_num [boxWithinCanvas, boxEx], by norm_num [paddings]⟩, by
    have h := crop_bounds 19 19 boxEx (1/10)
      (by norm_num [boxWithinCanvas, boxEx]) (by norm_num [paddings])
    push_cast at h ⊢
    exact h⟩

/-- C6: ensemble refinement never replaces the box or the landmarks: both
are carried through from the initial full-image detection, whose box and
landmarks are already the canvas-space values multiplied by the inverse
upscale factor (original-image coordinates). -/
theorem refine_frame (w : ℚ) (d : RawDetection) (i : ℕ)
    (preds : List (Option CropPred)) (r : InitialResult) :
    (refineFace r preds).box = r.box ∧
    (refineFace r preds).landmarks = r.landmarks ∧
    (refineFace (mkInitialResult i d (scaleFactor w)) preds).box =
      scaleBox d.box (1 / scaleFactor w) ∧
    (refineFace (mkInitialResult i d (scaleFactor w)) preds).landmarks =
      d.landmarks.map (fun p => scalePoint p (1 / scaleFactor w)) := by
  have hkeep : ∀ s : InitialResult,
      (refineFace s preds).box = s.box ∧ (refineFace s preds).landmarks = s.landmarks := by
    intro s
    unfold refineFace
    cases preds.filterMap id with
    | nil => exact ⟨rfl, rfl⟩
    | cons v vs => exact ⟨rfl, rfl⟩
  refine ⟨(hkeep r).1, (hkeep r).2, ?_, ?_⟩
  · rw [(hkeep (mkInitialResult i d (scaleFactor w))).1]; rfl
  · rw [(hkeep (mkInitialResult i d (scaleFactor w))).2]; rfl

/-- A concrete face for the stats-aggregator witness. -/
def fEx : RefinedFace :=
  { id := "face-1"
    box := ⟨0, 0, 1, 1⟩
    age := 30
    ageConfidence := 90
    gender := Gender.male
    genderConfidence := 85
    landmarks := [] }

/-- C7: the aggregated average confidence is 0 for an empty face list, and
otherwise the rounded mean, over all faces, of
round((ageConfidence + genderConfidence) / 2). -/
theorem avg_confidence (faces : List RefinedFace) :
    calcAvgConfidence [] = 0 ∧
    (faces ≠ [] →
      calcAvgConfidence faces =
        jsRound ((((faces.map (fun f =>
            jsRound (((f.ageConfidence : ℚ) + (f.genderConfidence : ℚ)) / 2))).sum : ℤ) : ℚ) /
          (faces.length : ℚ))) := by
  refine ⟨rfl, ?_⟩
  intro hne
  unfold calcAvgConfidence
  rw [if_pos (List.length_pos.mpr hne), foldl_add_map combinedConfidence faces 0, zero_add]
  rfl

/-- C7 witness: for the single face with ageConfidence 90 and
genderConfidence 85, the combined confidence is round(87.5) = 88 and the
aggregate equals 88. -/
theorem avg_confidence_witness :
    (([fEx] : List RefinedFace) ≠ [] ∧
      calcAvgConfidence [fEx] =
        jsRound (((([fEx].map (fun f =>
            jsRound (((f.ageConfidence : ℚ) + (f.genderConfidence : ℚ)) / 2))).sum : ℤ) : ℚ) /
          (([fEx] : List RefinedFace).length : ℚ))) ∧
    calcAvgConfidence [fEx] = 88 :=
  ⟨⟨List.cons_ne_nil _ _, (avg_confidence [fEx]).2 (List.cons_ne_nil _ _)⟩, by
    have h := (avg_confidence [fEx]).2 (List.cons_ne_nil _ _)
    rw [h]
    norm_num [fEx, jsRound]⟩

/-- C8: a body that fails schema validation yields status 400 with a JSON
error body and leaves the store untouched; a valid body yields the created
record as the JSON response body, with the record stored. -/
theorem post_analyses_validation (store : MemStorage) (newId : String) (now : ℤ) :
    (∀ e, postAnalyses store newId now (Except.error e) =
      (⟨400, RespBody.errorMsg e⟩, store)) ∧
    (∀ d, postAnalyses store newId now (Except.ok d) =
      (⟨200, RespBody.record (createFaceAnalysis store newId now d).1⟩,
        (createFaceAnalysis store newId now d).2)) :=
  ⟨fun _ => rfl, fun _ => rfl⟩

/-- C9: `GET /api/analyses/:id` returns the record as JSON when the id
exists and a 404 with body error "Analysis not found" otherwise; the
handler is total, so no exception can propagate. -/
theorem get_analysis_response (store : MemStorage) (key : String) :
    (getFaceAnalysisById store key = none ∧
      getAnalysisById store key = ⟨404, RespBody.errorMsg "Analysis not found"⟩) ∨
    (∃ a, getFaceAnalysisById store key = some a ∧
      getAnalysisById store key = ⟨200, RespBody.record a⟩) := by
  cases h : getFaceAnalysisById store key with
  | none =>
    left
    exact ⟨rfl, by unfold getAnalysisById; rw [h]⟩
  | some a =>
    right
    exact ⟨a, rfl, by unfold getAnalysisById; rw [h]⟩

/-- C10: a present `limit` query parameter whose `parseInt` is `NaN`
makes the in-memory backend return the empty list — the `NaN` reaches
`slice`, which selects nothing — whereas an absent parameter yields the
default of the 10 most recent records. -/
theorem nan_limit_returns_empty (store : MemStorage) :
    routeGetAnalyses store (some none) = [] ∧
    routeGetAnalyses store none =
      (sortNewestFirst (store.analyses.map Prod.snd)).take 10 := by
  exact ⟨rfl, rfl⟩

end FaceDetectAge
